import Mathlib

set_option maxRecDepth 10000

/-!
A shallow embedding of the text-extraction core of
`office/Extract-PowerPointText.py`: the per-paragraph bullet resolution,
the structured and flat shape-text assembly, the image alt-text fallback
chain, and the per-slide orchestration with its per-shape error handling.

Python string primitives (`strip`, `split`, `lower`, `in`, `startswith`,
`endswith`) are implemented by structural recursion over the character
list so that every definition evaluates by kernel reduction.
-/

namespace PptxExtract

/-! ## Python string primitives -/

/-- Python string truthiness: nonempty. -/
def strTruthy (s : String) : Bool := s ≠ ""

/-- Drop leading whitespace from a character list. -/
def trimLeftL (l : List Char) : List Char := l.dropWhile Char.isWhitespace

/-- Drop trailing whitespace from a character list. -/
def trimRightL (l : List Char) : List Char := (l.reverse.dropWhile Char.isWhitespace).reverse

/-- Python `s.lstrip()`. -/
def pyLStrip (s : String) : String := ⟨trimLeftL s.data⟩

/-- Python `s.rstrip()`. -/
def pyRStrip (s : String) : String := ⟨trimRightL s.data⟩

/-- Python `s.strip()`. -/
def pyStrip (s : String) : String := ⟨trimLeftL (trimRightL s.data)⟩

/-- Python `s[n:]` (drop the first `n` characters). -/
def pyDrop (s : String) (n : Nat) : String := ⟨s.data.drop n⟩

/-- Character-list prefix test. -/
def isPrefixL : List Char → List Char → Bool
  | [], _ => true
  | _ :: _, [] => false
  | a :: l1, b :: l2 => a == b && isPrefixL l1 l2

/-- Python `s.startswith(p)`. -/
def pyStartsWith (s p : String) : Bool := isPrefixL p.data s.data

/-- Python `s.endswith(p)`. -/
def pyEndsWith (s p : String) : Bool := isPrefixL p.data.reverse s.data.reverse

/-- Substring occurrence over character lists. -/
def containsL : List Char → List Char → Bool
  | [], needle => needle.isEmpty
  | c :: rest, needle => isPrefixL needle (c :: rest) || containsL rest needle

/-- Python `needle in hay`. -/
def strContains (hay needle : String) : Bool := containsL hay.data needle.data

/-- Python `s.lower()` (character-wise ASCII case mapping). -/
def strLower (s : String) : String := ⟨s.data.map Char.toLower⟩

/-- Word-count helper: counts maximal nonempty whitespace-separated runs;
    the flag records whether the previous character was inside a word. -/
def wordCountAux : Bool → List Char → Nat
  | _, [] => 0
  | inWord, c :: rest =>
    if c.isWhitespace then wordCountAux false rest
    else (if inWord then 0 else 1) + wordCountAux true rest

/-- Python `len(s.split())`. -/
def wordCount (s : String) : Nat := wordCountAux false s.data

/-- Split on newline characters, keeping empty pieces (python `s.split("\n")`). -/
def splitLinesAux : List Char → List Char → List String
  | [], acc => [⟨acc.reverse⟩]
  | c :: rest, acc =>
    if c == '\n' then String.mk acc.reverse :: splitLinesAux rest []
    else splitLinesAux rest (c :: acc)

/-- Python `s.split("\n")`. -/
def splitLines (s : String) : List String := splitLinesAux s.data []

/-- Python `"  " * level`. -/
def mkIndent (level : Nat) : String := String.join (List.replicate level "  ")

/-- Length of the leading whitespace run of a rendered line. -/
def leadingWS (s : String) : Nat := (s.data.takeWhile Char.isWhitespace).length

/-! ## Data model: the shape/paragraph tree as read by the script -/

/-- One paragraph of a text frame, together with the XML bullet-formatting
    signals probed by `extract_text_from_shape`. -/
structure Paragraph where
  /-- `paragraph.text`. -/
  text : String
  /-- `paragraph.level`. -/
  level : Nat
  /-- The `a:buChar` element under `pPr`: absent, or present with its
      optional `char` attribute. -/
  buCharEl : Option (Option String)
  /-- An `a:buAutoNum`, `a:buBlip` or `a:buFont` element is present under `pPr`. -/
  buOther : Bool
  /-- An `a:buNone` element is present under `pPr`. -/
  buNoneEl : Bool
  /-- Some run's `rPr` carries a `buChar` attribute (Method 2). -/
  runBuChar : Bool
  deriving DecidableEq

/-- A `cNvPr` element under a picture shape, with its optional
    `descr` and `title` attributes. -/
structure CNvPr where
  descr : Option String
  title : Option String
  deriving DecidableEq

/-- A slide shape as probed by the script.  `Option` fields model optional
    attributes (`none` = attribute absent). -/
structure Shape where
  /-- `shape.placeholder_format.idx` when the shape is a placeholder. -/
  placeholderIdx : Option Nat
  /-- `shape.shape_type == MSO_SHAPE_TYPE.PICTURE`. -/
  isPicture : Bool
  /-- `shape.text_frame.paragraphs` when the shape has a usable text frame. -/
  textFrame : Option (List Paragraph)
  /-- `shape.text` when the attribute exists. -/
  text : Option String
  /-- `shape.name` when the attribute exists. -/
  name : Option String
  /-- `shape.description` when the attribute exists. -/
  description : Option String
  /-- `shape.alt_text` when the attribute exists. -/
  altTextAttr : Option String
  /-- The `cNvPr` elements found when iterating the shape's XML element. -/
  cNvPrEls : List CNvPr
  /-- Fault injection point: inspecting this shape raises an exception. -/
  faulty : Bool
  deriving DecidableEq

/-- A slide: an ordered shape list and the notes text (when a notes slide
    with a notes text frame exists). -/
structure Slide where
  shapes : List Shape
  notes : Option String
  deriving DecidableEq

/-- The per-slide output record (`slide_content` dictionary). -/
structure SlideRecord where
  title : String
  content : List String
  images : List String
  notes : String
  deriving DecidableEq

/-! ## Bullet resolution (source lines 42-130) -/

/-- The literal bullet glyphs scanned for at the start of a paragraph text,
    in source order (`["•", "◦", "▪", "-", "*"]`). -/
def bulletCharsL : List String := ["•", "◦", "▪", "-", "*"]

/-- `default_bullets[level] if level < len(default_bullets) else "- "`. -/
def defaultBullet (level : Nat) : String := (["• ", "◦ ", "▪ "]).getD level "- "

/-- Keyword list of the level-0 continuation heuristic (source line 116). -/
def heurKeywords : List String :=
  ["align", "coordinate", "use", "incremental", "cross", "iterative",
   "teams", "backlogs", "decisions"]

/-- `slide2_patterns` (source line 125). -/
def slide2Patterns : List String :=
  ["align decision", "coordinate shared", "agile ceremonies", "incremental",
   "cross-functional", "iterative", "teams operate", "backlogs are",
   "shared decisions"]

/-- Keyword list of flat-mode Case 3 (source line 177). -/
def flatKeywords : List String :=
  ["align", "coordinate", "use", "teams", "incremental", "cross",
   "iterative", "backlogs", "decisions", "shared"]

/-- Bullet char extracted from the `a:buChar` element's `char` attribute
    (source lines 59-61): empty unless the attribute is present. -/
def xmlBullet (p : Paragraph) : String :=
  match p.buCharEl with
  | some (some c) => c ++ " "
  | _ => ""

/-- `has_ppt_bullet` after Methods 1 and 2 (source lines 54-71): the `buNone`
    branch only re-assigns the already-false flag, so it has no effect. -/
def hasPptBullet (p : Paragraph) : Bool :=
  p.buCharEl.isSome || p.buOther || p.runBuChar

/-- Text-embedded bullet detection (source lines 77-84): the first glyph of
    `bulletCharsL` the stripped text starts with is removed from the text and
    becomes the bullet only when the XML attribute supplied none.
    Returns `(original_bullet, text)` after this step. -/
def textBulletStep (p : Paragraph) : String × String :=
  match bulletCharsL.find? (fun b => pyStartsWith (pyStrip p.text) b) with
  | some b => (if xmlBullet p = "" then b ++ " " else xmlBullet p,
               pyStrip (pyDrop (pyStrip p.text) b.data.length))
  | none => (xmlBullet p, pyStrip p.text)

/-- Level-0 continuation heuristic (source lines 98-121): previous nonempty
    paragraph texts of the same shape; the last one must be short without a
    trailing colon, the current text substantial and containing one of the
    hard-coded keywords.  `all_paragraphs.index(paragraph)` resolves to the
    paragraph's own position (python object identity). -/
def heur1Cond (ps : List Paragraph) (i : Nat) (text : String) : Bool :=
  let prevTexts := ((ps.take i).map (fun q => pyStrip q.text)).filter (fun t => t ≠ "")
  match prevTexts.getLast? with
  | some last =>
    wordCount last ≤ 3 && !(pyEndsWith last ":") && 2 < wordCount text
      && heurKeywords.any (fun k => strContains (strLower text) k)
  | none => false

/-- Forced-bullet fallback (source lines 124-127). -/
def slide2Cond (text : String) : Bool :=
  slide2Patterns.any (fun k => strContains (strLower text) k)

/-- Bullet resolution for one nonblank paragraph (source lines 48-127):
    returns the glyph (`original_bullet`) and the display text. -/
def resolveBullet (ps : List Paragraph) (i : Nat) (p : Paragraph) : String × String :=
  let ob1 := (textBulletStep p).1
  let text1 := (textBulletStep p).2
  let ob2 := if hasPptBullet p && ob1 = "" then defaultBullet p.level else ob1
  let ob3 := if ob2 = "" && 0 < p.level then defaultBullet p.level else ob2
  let ob4 := if ob3 = "" && p.level = 0 && heur1Cond ps i text1 then "• " else ob3
  let ob5 := if ob4 = "" && p.level = 0 && slide2Cond text1 then "• " else ob4
  (ob5, text1)

/-- `formatted_line = f"{indent}{original_bullet}{text}"` (source line 129). -/
def resolveParagraph (ps : List Paragraph) (i : Nat) (p : Paragraph) : String :=
  mkIndent p.level ++ (resolveBullet ps i p).1 ++ (resolveBullet ps i p).2

/-- Structured mode (source lines 38-130): one formatted line per paragraph
    whose stripped text is nonempty, in source order. -/
def structuredLines (ps : List Paragraph) : List String :=
  ps.enum.filterMap (fun ip =>
    if pyStrip ip.2.text = "" then none else some (resolveParagraph ps ip.1 ip.2))

/-! ## Flat mode (source lines 131-194) -/

/-- Flat-mode synthesized bullet by estimated indent level (source lines 184-189). -/
def flatBullet (lvl : Nat) : String :=
  if lvl = 0 then "• " else if lvl = 1 then "◦ " else "▪ "

/-- Flat-mode processing of one raw line, given the lines already emitted
    for this shape (source lines 134-194). -/
def flatStep (acc : List String) (rawLine : String) : List String :=
  let line := pyRStrip rawLine
  if pyStrip line = "" then acc
  else
    let stripped := pyLStrip line
    let indentLevel := (line.data.length - stripped.data.length) / 2
    if bulletCharsL.any (fun b => pyStartsWith stripped b) then acc ++ [stripped]
    else
      let preceding := acc.filter (fun l => pyStrip l ≠ "")
      let case1 : Bool :=
        match preceding.getLast? with
        | some pl => (pyEndsWith pl ":" || wordCount pl ≤ 3)
            && 1 < wordCount stripped && !(pyEndsWith stripped ":")
        | none => false
      let case2 : Bool :=
        match preceding.getLast? with
        | some pl => bulletCharsL.any (fun b => pyStartsWith pl b)
            && 1 < wordCount stripped && !(pyEndsWith stripped ":")
        | none => false
      let case3 : Bool := 1 < wordCount stripped && !(pyEndsWith stripped ":")
          && ((stripped.data.headD ' ').isUpper
              || flatKeywords.any (fun w => strContains (strLower stripped) w))
      if case1 || case2 || case3 then
        acc ++ [mkIndent indentLevel ++ flatBullet indentLevel ++ stripped]
      else acc ++ [stripped]

/-- Flat-mode line assembly (source lines 133-194): the list built before the
    duplicated structured block at source line 196 executes. -/
def flatLines (blob : String) : List String := (splitLines blob).foldl flatStep []

/-- `extract_text_from_shape` (source lines 33-286).  In flat mode the
    function builds the line list but then dereferences
    `shape.text_frame.paragraphs` (source line 196) on a shape that has no
    usable text frame, which raises `AttributeError`; the result is
    therefore an `Except`. -/
def extract_text_from_shape (shape : Shape) : Except String (List String) :=
  match shape.textFrame with
  | some ps => Except.ok (structuredLines ps)
  | none =>
    match shape.text with
    | some t =>
      if pyStrip t ≠ "" then
        let _flat := flatLines t
        Except.error "AttributeError: shape has no text_frame"
      else Except.ok []
    | none => Except.ok []

/-! ## Image alt-text resolution (source lines 331-383) -/

/-- First `cNvPr` `descr` attribute that is truthy with a nonblank strip
    (Method 2, source lines 343-351). -/
def scanDescr (els : List CNvPr) : Option String :=
  (els.find? (fun e =>
    match e.descr with
    | some d => strTruthy d && pyStrip d ≠ ""
    | none => false)).bind (fun e => e.descr)

/-- First `cNvPr` `title` attribute that is truthy with a nonblank strip
    (Method 3, source lines 353-363). -/
def scanTitle (els : List CNvPr) : Option String :=
  (els.find? (fun e =>
    match e.title with
    | some d => strTruthy d && pyStrip d ≠ ""
    | none => false)).bind (fun e => e.title)

/-- Method 1 (source lines 336-339): the `description` attribute, else the
    `alt_text` attribute, when truthy. -/
def altMethod1 (shape : Shape) : String :=
  match shape.description with
  | some d =>
    if strTruthy d then d
    else match shape.altTextAttr with
         | some a => if strTruthy a then a else ""
         | none => ""
  | none =>
    match shape.altTextAttr with
    | some a => if strTruthy a then a else ""
    | none => ""

/-- Method 2 (source lines 342-351): scan `cNvPr` `descr` attributes when
    still empty. -/
def altMethod2 (shape : Shape) : String :=
  if altMethod1 shape = "" then (scanDescr shape.cNvPrEls).getD ""
  else altMethod1 shape

/-- Method 3 (source lines 353-363): scan `cNvPr` `title` attributes when
    still empty. -/
def altMethod3 (shape : Shape) : String :=
  if altMethod2 shape = "" then (scanTitle shape.cNvPrEls).getD ""
  else altMethod2 shape

/-- Method 4 (source lines 365-370): the stripped shape name unless it looks
    auto-generated. -/
def altMethod4 (shape : Shape) : String :=
  if altMethod3 shape = "" then
    match shape.name with
    | some nm =>
      if strTruthy nm then
        if !(pyStartsWith (pyStrip nm) "Picture "
             || pyStartsWith (pyStrip nm) "Graphic "
             || pyStartsWith (pyStrip nm) "Image ") then pyStrip nm else ""
      else ""
    | none => ""
  else altMethod3 shape

/-- Image alt-text resolution for a picture shape (source lines 331-383),
    given the image list collected so far on this slide (its length feeds the
    `Image_<n>` placeholder of the fallback). -/
def resolveImageAlt (images : List String) (shape : Shape) : String :=
  if strTruthy (altMethod4 shape) && pyStrip (altMethod4 shape) ≠ "" then
    pyStrip (altMethod4 shape)
  else "[No alt-text] " ++ shape.name.getD ("Image_" ++ toString (images.length + 1))

/-! ## Slide assembly (source lines 289-399) -/

/-- Title scan step (source lines 300-310).  There is no `break`: a later
    matching title placeholder overwrites an earlier one.  A faulty shape is
    skipped by the `except: continue`. -/
def titleStep (t : String) (shape : Shape) : String :=
  if shape.faulty then t
  else
    match shape.placeholderIdx with
    | some 0 =>
      match shape.text with
      | some tx => if pyStrip tx ≠ "" then pyStrip tx else t
      | none => t
    | _ => t

/-- The predicate under which a shape updates the running title. -/
def titlePred (s : Shape) : Bool :=
  !s.faulty && s.placeholderIdx == some 0 && pyStrip (s.text.getD "") ≠ ""

/-- Content/image step for one shape (source lines 314-391), with the
    per-shape `try/except`: a shape that raises (fault injection, or the
    flat-mode `AttributeError`) leaves both accumulators unchanged. -/
def contentStep (acc : List String × List String) (shape : Shape) :
    List String × List String :=
  if shape.faulty then acc
  else if shape.placeholderIdx == some 0 then acc
  else if shape.isPicture then (acc.1, acc.2 ++ [resolveImageAlt acc.2 shape])
  else
    match extract_text_from_shape shape with
    | Except.ok ls => (acc.1 ++ ls, acc.2)
    | Except.error _ => acc

/-- `extract_slide_text` (source lines 289-399). -/
def extract_slide_text (slide : Slide) : SlideRecord :=
  let title := slide.shapes.foldl titleStep ""
  let ci := slide.shapes.foldl contentStep ([], [])
  let notes :=
    match slide.notes with
    | some n => if pyStrip n ≠ "" then pyStrip n else ""
    | none => ""
  { title := title, content := ci.1, images := ci.2, notes := notes }

/-! ## Sample data for witnesses and counterexamples -/

/-- A paragraph with every optional bullet signal absent. -/
def baseParagraph : Paragraph :=
  { text := "", level := 0, buCharEl := none, buOther := false,
    buNoneEl := false, runBuChar := false }

/-- A shape with every optional attribute absent. -/
def baseShape : Shape :=
  { placeholderIdx := none, isPicture := false, textFrame := none,
    text := none, name := none, description := none, altTextAttr := none,
    cNvPrEls := [], faulty := false }

/-- A paragraph whose text carries a "-" glyph while the XML `buChar`
    attribute supplies "►". -/
def pGlyphAttr : Paragraph :=
  { baseParagraph with text := "- hello world", buCharEl := some (some "►") }

/-- A paragraph whose text carries a "-" glyph and nothing else. -/
def pTextGlyph : Paragraph := { baseParagraph with text := "- hello world" }

/-- A level-1 paragraph carrying only the explicit no-bullet attribute. -/
def pBuNone : Paragraph :=
  { baseParagraph with text := "hello", level := 1, buNoneEl := true }

/-- A level-2 paragraph carrying only the explicit no-bullet attribute. -/
def pBuNone2 : Paragraph :=
  { baseParagraph with text := "hello there", level := 2, buNoneEl := true }

/-- A short header-like paragraph. -/
def pHeader : Paragraph := { baseParagraph with text := "Overview" }

/-- A substantial level-0 paragraph with no heuristic keyword. -/
def pPlain : Paragraph := { baseParagraph with text := "This is a longer test sentence" }

/-- A substantial level-0 paragraph containing heuristic keywords. -/
def pKeyword : Paragraph := { baseParagraph with text := "Teams operate with shared backlogs" }

/-- A level-2 paragraph with no bullet signal at all. -/
def pLevel2 : Paragraph := { baseParagraph with text := "hello there", level := 2 }

/-- A level-1 paragraph with no bullet signal at all. -/
def pLevel1 : Paragraph := { baseParagraph with text := "hello world", level := 1 }

/-- A shape exposing only a flat text blob (no text frame). -/
def flatShape : Shape := { baseShape with text := some "  - Item one\nItem two" }

/-- First title-placeholder shape. -/
def titleA : Shape := { baseShape with placeholderIdx := some 0, text := some "A" }

/-- Second title-placeholder shape. -/
def titleB : Shape := { baseShape with placeholderIdx := some 0, text := some "B" }

/-- A title-placeholder shape with whitespace-only text. -/
def emptyTitle : Shape :=
  { baseShape with placeholderIdx := some 0, text := some "   " }

/-- A well-formed content shape with one paragraph. -/
def goodShape : Shape := { baseShape with textFrame := some [pHeader] }

/-- A shape whose processing raises. -/
def faultyShape : Shape := { baseShape with faulty := true }

/-- A picture shape with only a generic auto-generated name. -/
def picGeneric : Shape := { baseShape with isPicture := true, name := some "Picture 3" }

/-!
## Theorems

Shared helper lemmas first, then one theorem (with counterexample and
witness where required) per claim.
-/

/-- `(a ++ b).data` unfolds to list append. -/
lemma data_append (a b : String) : (a ++ b).data = a.data ++ b.data := rfl

/-- A string whose data is nonempty stays nonempty under right append. -/
lemma append_ne_empty (a b : String) (h : a.data ≠ []) : a ++ b ≠ "" := by
  intro hc
  have hd : (a ++ b).data = [] := by rw [hc]
  rw [data_append] at hd
  exact h (List.append_eq_nil.mp hd).1

/-- The per-level default glyph is never empty. -/
lemma defaultBullet_ne_empty (level : Nat) : defaultBullet level ≠ "" := by
  unfold defaultBullet
  match level with
  | 0 => decide
  | 1 => decide
  | 2 => decide
  | n + 3 =>
    rw [show (["• ", "◦ ", "▪ "].getD (n + 3) "- ") = "- " from rfl]
    decide

/-- The per-level default glyph comes from the level table or is "- ". -/
lemma defaultBullet_mem (level : Nat) :
    defaultBullet level ∈ ["• ", "◦ ", "▪ ", "- "] := by
  unfold defaultBullet
  match level with
  | 0 => decide
  | 1 => decide
  | 2 => decide
  | n + 3 =>
    rw [show (["• ", "◦ ", "▪ "].getD (n + 3) "- ") = "- " from rfl]
    decide

/-- With no `buChar` char attribute, the XML bullet is empty. -/
lemma xmlBullet_empty (p : Paragraph) (hchar : ∀ c, p.buCharEl ≠ some (some c)) :
    xmlBullet p = "" := by
  unfold xmlBullet
  match h : p.buCharEl with
  | none => rfl
  | some none => rfl
  | some (some c) => exact absurd h (hchar c)

/-- With no XML char and no text-embedded glyph, the text-bullet step is inert. -/
lemma textBulletStep_inert (p : Paragraph)
    (hchar : ∀ c, p.buCharEl ≠ some (some c))
    (hfind : bulletCharsL.find? (fun b => pyStartsWith (pyStrip p.text) b) = none) :
    textBulletStep p = ("", pyStrip p.text) := by
  unfold textBulletStep
  rw [hfind, xmlBullet_empty p hchar]

/-- With none of the three XML signals, `has_ppt_bullet` is false. -/
lemma hasPptBullet_false (p : Paragraph)
    (hchar : p.buCharEl = none) (ho : p.buOther = false) (hr : p.runBuChar = false) :
    hasPptBullet p = false := by
  simp [hasPptBullet, hchar, ho, hr]

/-- With no explicit signal and no text glyph, a positive level yields the
    per-level default glyph (source lines 91-94). -/
lemma resolveBullet_level_default (ps : List Paragraph) (i : Nat) (p : Paragraph)
    (hchar : p.buCharEl = none) (ho : p.buOther = false) (hr : p.runBuChar = false)
    (hfind : bulletCharsL.find? (fun b => pyStartsWith (pyStrip p.text) b) = none)
    (hlev : 0 < p.level) :
    (resolveBullet ps i p).1 = defaultBullet p.level := by
  have htb := textBulletStep_inert p (by intro c hc; rw [hchar] at hc; cases hc) hfind
  have hppt := hasPptBullet_false p hchar ho hr
  have hne := defaultBullet_ne_empty p.level
  simp only [resolveBullet, htb, hppt]
  simp [hlev, Nat.pos_iff_ne_zero.mp hlev, hne]

/-- With no explicit signal, no text glyph, and level 0, the glyph is "• "
    exactly when one of the two keyword heuristics fires
    (source lines 96-127). -/
lemma resolveBullet_level0 (ps : List Paragraph) (i : Nat) (p : Paragraph)
    (hchar : p.buCharEl = none) (ho : p.buOther = false) (hr : p.runBuChar = false)
    (hfind : bulletCharsL.find? (fun b => pyStartsWith (pyStrip p.text) b) = none)
    (hlev : p.level = 0) :
    (resolveBullet ps i p).1 =
      if heur1Cond ps i (pyStrip p.text) || slide2Cond (pyStrip p.text)
      then "• " else "" := by
  have htb := textBulletStep_inert p (by intro c hc; rw [hchar] at hc; cases hc) hfind
  have hppt := hasPptBullet_false p hchar ho hr
  simp only [resolveBullet, htb, hppt]
  by_cases h1 : heur1Cond ps i (pyStrip p.text)
  · simp [hlev, h1]
  · by_cases h2 : slide2Cond (pyStrip p.text) <;> simp [hlev, h1, h2]

/-- C1 counterexample: the trimmed text begins with the literal "-" glyph,
    yet the emitted glyph is the XML attribute's "► ", not "- " — the
    text-embedded glyph is overridden by the explicit bullet-glyph
    attribute. -/
theorem buChar_attr_overrides_text_glyph :
    pyStartsWith (pyStrip pGlyphAttr.text) "-" = true
    ∧ (resolveBullet [pGlyphAttr] 0 pGlyphAttr).1 = "► "
    ∧ (resolveBullet [pGlyphAttr] 0 pGlyphAttr).1 ≠ "- " := by decide

/-- C1 (amended): if the trimmed text begins with a literal bullet glyph and
    the paragraph's XML `buChar` element carries no char attribute, the glyph
    is stripped from the text and emitted as glyph-plus-space, and no other
    signal (has-bullet default, level default, heuristics) overrides it. -/
theorem text_glyph_authoritative (ps : List Paragraph) (i : Nat) (p : Paragraph)
    (b : String)
    (hfind : bulletCharsL.find? (fun g => pyStartsWith (pyStrip p.text) g) = some b)
    (hchar : ∀ c, p.buCharEl ≠ some (some c)) :
    (resolveBullet ps i p).1 = b ++ " " := by
  have hb : b ∈ bulletCharsL := List.mem_of_find?_eq_some hfind
  have hbne : b ++ " " ≠ "" := by
    simp only [bulletCharsL, List.mem_cons, List.not_mem_nil, or_false] at hb
    rcases hb with rfl | rfl | rfl | rfl | rfl <;> decide
  have htb : (textBulletStep p).1 = b ++ " " := by
    unfold textBulletStep
    rw [hfind, xmlBullet_empty p hchar]
    simp
  simp only [resolveBullet, htb]
  simp [hbne]

/-- C1 witness: a paragraph with text "- hello world" and no attribute
    resolves to glyph "- ". -/
theorem text_glyph_authoritative_wit :
    (resolveBullet [pTextGlyph] 0 pTextGlyph).1 = "- " :=
  text_glyph_authoritative [pTextGlyph] 0 pTextGlyph "-" (by decide)
    (by intro c hc; simp [pTextGlyph, baseParagraph] at hc)

/-- C2 counterexample: a paragraph carrying the explicit no-bullet attribute
    at level 1 (with no text glyph) is emitted with glyph "◦ ", not with no
    glyph. -/
theorem buNone_ignored_at_positive_level :
    pBuNone.buNoneEl = true ∧ 0 < pBuNone.level
    ∧ (resolveBullet [pBuNone] 0 pBuNone).1 = "◦ "
    ∧ (resolveBullet [pBuNone] 0 pBuNone).1 ≠ "" := by decide

/-- C2 (amended): the explicit no-bullet attribute has no effect on
    resolution — in particular, for a paragraph carrying it (and no other
    explicit signal and no text glyph) at indentLevel > 0, the level-table
    default glyph is emitted anyway. -/
theorem buNone_level_default_applies (ps : List Paragraph) (i : Nat) (p : Paragraph)
    (_hnone : p.buNoneEl = true)
    (hchar : p.buCharEl = none) (ho : p.buOther = false) (hr : p.runBuChar = false)
    (hfind : bulletCharsL.find? (fun b => pyStartsWith (pyStrip p.text) b) = none)
    (hlev : 0 < p.level) :
    (resolveBullet ps i p).1 = defaultBullet p.level
    ∧ (resolveBullet ps i p).1 ≠ "" :=
  ⟨resolveBullet_level_default ps i p hchar ho hr hfind hlev,
   by rw [resolveBullet_level_default ps i p hchar ho hr hfind hlev]
      exact defaultBullet_ne_empty p.level⟩

/-- C2 witness: the level-2 no-bullet paragraph gets "▪ ". -/
theorem buNone_level_default_applies_wit :
    (resolveBullet [pBuNone2] 0 pBuNone2).1 = defaultBullet pBuNone2.level
    ∧ (resolveBullet [pBuNone2] 0 pBuNone2).1 ≠ "" :=
  buNone_level_default_applies [pBuNone2] 0 pBuNone2 rfl rfl rfl rfl (by decide)
    (by decide)

/-- C3 counterexample: the purely structural continuation condition holds
    (preceding "Overview" has ≤ 3 words and no trailing colon; the current
    text has > 2 words and no trailing colon), yet no bullet is assigned,
    because the current text contains none of the hard-coded keywords. -/
theorem structural_condition_without_keyword :
    wordCount (pyStrip pHeader.text) ≤ 3
    ∧ pyEndsWith (pyStrip pHeader.text) ":" = false
    ∧ 2 < wordCount (pyStrip pPlain.text)
    ∧ pyEndsWith (pyStrip pPlain.text) ":" = false
    ∧ (resolveBullet [pHeader, pPlain] 1 pPlain).1 = "" := by decide

/-- C3 (amended): for a level-0 paragraph with no explicit signal and no
    text glyph, a bullet is assigned exactly when either the continuation
    heuristic fires — preceding nonempty paragraph text short (≤ 3 words)
    without colon, current text > 2 words AND containing one of the
    hard-coded keywords — or the current text matches one of the hard-coded
    "slide 2" patterns; the assigned glyph is then "• ". -/
theorem level0_bullet_requires_keyword (ps : List Paragraph) (i : Nat) (p : Paragraph)
    (hchar : p.buCharEl = none) (ho : p.buOther = false) (hr : p.runBuChar = false)
    (hfind : bulletCharsL.find? (fun b => pyStartsWith (pyStrip p.text) b) = none)
    (hlev : p.level = 0) :
    ((resolveBullet ps i p).1 ≠ "" ↔
      (heur1Cond ps i (pyStrip p.text) || slide2Cond (pyStrip p.text)) = true)
    ∧ ((resolveBullet ps i p).1 ≠ "" → (resolveBullet ps i p).1 = "• ") := by
  have h := resolveBullet_level0 ps i p hchar ho hr hfind hlev
  rw [h]
  constructor
  · constructor
    · intro hne
      by_contra hc
      rw [Bool.not_eq_true] at hc
      rw [hc] at hne
      simp at hne
    · intro ht
      rw [ht]
      decide
  · intro hne
    by_cases hc : (heur1Cond ps i (pyStrip p.text) || slide2Cond (pyStrip p.text)) = true
    · rw [if_pos hc]
    · rw [Bool.not_eq_true] at hc
      rw [hc] at hne
      simp at hne

/-- C3 witness: with keyword-bearing text the heuristic fires and yields "• ". -/
theorem level0_bullet_requires_keyword_wit :
    (resolveBullet [pHeader, pKeyword] 1 pKeyword).1 = "• " :=
  have h := level0_bullet_requires_keyword [pHeader, pKeyword] 1 pKeyword
    rfl rfl rfl (by decide) rfl
  h.2 (h.1.mpr (by decide))

/-- C7: with no explicit bullet attribute and no text-embedded glyph, a
    positive indentation level always receives a non-empty glyph from the
    level table (with the generic "- " beyond it). -/
theorem positive_level_default_glyph (ps : List Paragraph) (i : Nat) (p : Paragraph)
    (hchar : p.buCharEl = none) (ho : p.buOther = false) (hr : p.runBuChar = false)
    (hfind : bulletCharsL.find? (fun b => pyStartsWith (pyStrip p.text) b) = none)
    (hlev : 0 < p.level) :
    (resolveBullet ps i p).1 = defaultBullet p.level
    ∧ (resolveBullet ps i p).1 ≠ ""
    ∧ (resolveBullet ps i p).1 ∈ ["• ", "◦ ", "▪ ", "- "] := by
  have h := resolveBullet_level_default ps i p hchar ho hr hfind hlev
  rw [h]
  exact ⟨rfl, defaultBullet_ne_empty p.level, defaultBullet_mem p.level⟩

/-- C7 witness: a bare level-2 paragraph gets "▪ ". -/
theorem positive_level_default_glyph_wit :
    (resolveBullet [pLevel2] 0 pLevel2).1 = defaultBullet pLevel2.level
    ∧ (resolveBullet [pLevel2] 0 pLevel2).1 ≠ ""
    ∧ (resolveBullet [pLevel2] 0 pLevel2).1 ∈ ["• ", "◦ ", "▪ ", "- "] :=
  positive_level_default_glyph [pLevel2] 0 pLevel2 rfl rfl rfl (by decide) (by decide)

/-- A shape satisfying `titlePred` updates the running title to its stripped
    text. -/
lemma titleStep_pred_true {s : Shape} (h : titlePred s = true) (t : String) :
    titleStep t s = pyStrip (s.text.getD "") := by
  unfold titlePred at h
  simp only [Bool.and_eq_true, Bool.not_eq_true', beq_iff_eq, decide_eq_true_eq] at h
  obtain ⟨⟨hf, hidx⟩, htx⟩ := h
  unfold titleStep
  rw [hf, hidx]
  match htext : s.text with
  | some tx =>
    rw [htext] at htx
    simp only [Option.getD_some] at htx ⊢
    simp [htx]
  | none =>
    rw [htext] at htx
    exact absurd rfl htx

/-- A shape not satisfying `titlePred` leaves the running title unchanged. -/
lemma titleStep_pred_false {s : Shape} (h : titlePred s = false) (t : String) :
    titleStep t s = t := by
  unfold titlePred at h
  unfold titleStep
  by_cases hf : s.faulty
  · simp [hf]
  · simp only [Bool.not_eq_true] at hf
    rw [hf]
    simp only [hf, Bool.not_false, Bool.true_and, Bool.and_eq_false_iff] at h
    match hidx : s.placeholderIdx with
    | some 0 =>
      rw [hidx] at h
      simp only [beq_self_eq_true, Bool.true_eq_false, false_or] at h
      match htext : s.text with
      | some tx =>
        rw [htext] at h
        simp only [Option.getD_some, decide_eq_false_iff_not, not_not] at h
        simp [h]
      | none => simp
    | some (n + 1) => simp
    | none => simp

/-- The title scan is a left fold in which the last shape satisfying
    `titlePred` wins. -/
lemma foldl_titleStep : ∀ (shapes : List Shape) (t : String),
    shapes.foldl titleStep t =
      match (shapes.filter titlePred).getLast? with
      | some s => pyStrip (s.text.getD "")
      | none => t
  | [], t => by simp
  | s :: rest, t => by
    rw [List.foldl_cons, List.filter_cons]
    by_cases hp : titlePred s
    · rw [if_pos hp, titleStep_pred_true hp, foldl_titleStep rest _]
      cases hrest : rest.filter titlePred with
      | nil => simp
      | cons a l =>
        rw [List.getLast?_cons_cons]
        cases hl : (a :: l).getLast? with
        | none => exact absurd (List.getLast?_eq_none_iff.mp hl) (by simp)
        | some b => rfl
    · rw [if_neg (by simp [hp]), titleStep_pred_false (by simpa using hp),
          foldl_titleStep rest t]

/-- C5 counterexample: with two title-placeholder shapes with nonempty text,
    the recorded title is the text of the second, not the first. -/
theorem second_title_shape_overwrites :
    (extract_slide_text ⟨[titleA, titleB], none⟩).title = "B"
    ∧ (extract_slide_text ⟨[titleA, titleB], none⟩).title ≠ "A" := by decide

/-- C5 (amended): the recorded title equals the stripped text of the LAST
    shape in shape order that is a title placeholder (index 0) with nonblank
    text; and every shape with placeholder index 0 is excluded from content
    processing. -/
theorem title_is_last_title_placeholder :
    (∀ (slide : Slide) (s : Shape),
      (slide.shapes.filter titlePred).getLast? = some s →
      (extract_slide_text slide).title = pyStrip (s.text.getD ""))
    ∧ (∀ (acc : List String × List String) (s : Shape),
      s.placeholderIdx = some 0 → contentStep acc s = acc) := by
  constructor
  · intro slide s h
    have ht : (extract_slide_text slide).title = slide.shapes.foldl titleStep "" := by
      simp [extract_slide_text]
    rw [ht, foldl_titleStep, h]
  · intro acc s h
    unfold contentStep
    by_cases hf : s.faulty <;> simp [hf, h]

/-- C5 witness: the slide with title shapes "A" then "B" records title "B",
    and the first title shape contributes nothing to content. -/
theorem title_is_last_title_placeholder_wit :
    (extract_slide_text ⟨[titleA, titleB], none⟩).title = "B"
    ∧ contentStep ([], []) titleA = ([], []) := by
  constructor
  · have h := title_is_last_title_placeholder.1 ⟨[titleA, titleB], none⟩ titleB
      (by decide)
    exact h.trans (by decide)
  · exact title_is_last_title_placeholder.2 ([], []) titleA (by decide)

/-- C4: a shape exposing only a flat text blob has its lines computed by the
    flat-mode loop, but the function then dereferences the missing
    `text_frame` in the duplicated structured block (source line 196) and
    raises; the per-shape handler swallows the error, so the shape
    contributes no lines at all to the slide content. -/
theorem flat_shape_lines_dropped :
    flatLines "  - Item one\nItem two" = ["- Item one", "• Item two"]
    ∧ extract_text_from_shape flatShape
        = Except.error "AttributeError: shape has no text_frame"
    ∧ (extract_slide_text ⟨[flatShape], none⟩).content = [] :=
  ⟨by decide, rfl, by decide⟩

/-- C8: any error raised while processing one shape is confined to that
    shape: the slide record is exactly the one obtained without the faulty
    shape, so every other shape's lines and images are preserved and no
    error escapes the slide. -/
theorem faulty_shape_isolated (pre post : List Shape) (s : Shape)
    (notes : Option String) (h : s.faulty = true) :
    extract_slide_text ⟨pre ++ s :: post, notes⟩
      = extract_slide_text ⟨pre ++ post, notes⟩ := by
  have h1 : ∀ t, titleStep t s = t := by intro t; simp [titleStep, h]
  have h2 : ∀ acc, contentStep acc s = acc := by intro acc; simp [contentStep, h]
  unfold extract_slide_text
  simp only [List.foldl_append, List.foldl_cons, h1, h2]

/-- C8 witness: a faulty shape next to a good shape changes nothing, and the
    good shape's line is still in the content. -/
theorem faulty_shape_isolated_wit :
    extract_slide_text ⟨[goodShape, faultyShape], none⟩
      = extract_slide_text ⟨[goodShape], none⟩
    ∧ (extract_slide_text ⟨[goodShape, faultyShape], none⟩).content = ["Overview"] :=
  ⟨faulty_shape_isolated [goodShape] [] faultyShape none rfl, by decide⟩

/-- C9: the image alt-text resolver never returns an empty string, and when
    the description/alt-text attributes, the scanned `descr` and `title`
    metadata, and a non-generic name are all absent or empty it returns the
    sentinel `"[No alt-text] " ++ fallbackName` with the shape's name (or the
    `Image_<ordinal>` placeholder) as fallback. -/
theorem image_alt_nonempty_sentinel (images : List String) (s : Shape) :
    resolveImageAlt images s ≠ ""
    ∧ (s.description.getD "" = "" → s.altTextAttr.getD "" = "" →
       scanDescr s.cNvPrEls = none → scanTitle s.cNvPrEls = none →
       (∀ nm, s.name = some nm →
         nm = "" ∨ pyStartsWith (pyStrip nm) "Picture " = true
           ∨ pyStartsWith (pyStrip nm) "Graphic " = true
           ∨ pyStartsWith (pyStrip nm) "Image " = true) →
       resolveImageAlt images s
         = "[No alt-text] " ++ s.name.getD ("Image_" ++ toString (images.length + 1))) := by
  constructor
  · unfold resolveImageAlt
    split
    · next hcond =>
      have h2 := (Bool.and_eq_true _ _).mp hcond
      exact of_decide_eq_true h2.2
    · exact append_ne_empty "[No alt-text] " _ (by decide)
  · intro hdesc halt hscand hscant hname
    have h1 : altMethod1 s = "" := by
      unfold altMethod1
      match hd : s.description with
      | some d =>
        rw [hd] at hdesc
        simp only [Option.getD_some] at hdesc
        simp only [hdesc, strTruthy]
        match ha : s.altTextAttr with
        | some a =>
          rw [ha] at halt
          simp only [Option.getD_some] at halt
          simp [halt]
        | none => simp
      | none =>
        match ha : s.altTextAttr with
        | some a =>
          rw [ha] at halt
          simp only [Option.getD_some] at halt
          simp [halt, strTruthy]
        | none => simp
    have h2 : altMethod2 s = "" := by
      unfold altMethod2
      rw [h1, hscand]
      simp
    have h3 : altMethod3 s = "" := by
      unfold altMethod3
      rw [h2, hscant]
      simp
    have h4 : altMethod4 s = "" := by
      unfold altMethod4
      rw [h3]
      simp only [if_pos rfl]
      match hn : s.name with
      | some nm =>
        rcases hname nm hn with hne | hp | hp | hp
        · simp [hne, strTruthy]
        · simp [hp]
        · simp [hp]
        · simp [hp]
      | none => rfl
    unfold resolveImageAlt
    rw [h4]
    simp [strTruthy]

/-- C9 witness: a picture shape whose only metadata is the generic name
    "Picture 3" yields the sentinel with that name. -/
theorem image_alt_nonempty_sentinel_wit :
    resolveImageAlt [] picGeneric ≠ ""
    ∧ resolveImageAlt [] picGeneric = "[No alt-text] Picture 3" := by
  constructor
  · exact (image_alt_nonempty_sentinel [] picGeneric).1
  · have h := (image_alt_nonempty_sentinel [] picGeneric).2
      (by decide) (by decide) (by decide) (by decide)
      (by intro nm hn
          have : nm = "Picture 3" := by
            simp [picGeneric, baseShape] at hn
            exact hn.symm
          right; left
          rw [this]
          decide)
    exact h.trans (by decide)

/-- C10: a shape with placeholder index 0 is excluded from all content
    processing even when its text is empty or whitespace-only: it
    contributes no title, no content lines and no image entry, so the slide
    record is the one obtained without it. -/
theorem empty_title_placeholder_excluded (pre post : List Shape) (s : Shape)
    (notes : Option String) (hidx : s.placeholderIdx = some 0)
    (htext : pyStrip (s.text.getD "") = "") :
    extract_slide_text ⟨pre ++ s :: post, notes⟩
      = extract_slide_text ⟨pre ++ post, notes⟩ := by
  have h1 : ∀ t, titleStep t s = t := by
    intro t
    apply titleStep_pred_false
    unfold titlePred
    rw [hidx, htext]
    simp
  have h2 : ∀ acc, contentStep acc s = acc := by
    intro acc
    unfold contentStep
    by_cases hf : s.faulty <;> simp [hf, hidx]
  unfold extract_slide_text
  simp only [List.foldl_append, List.foldl_cons, h1, h2]

/-- C10 witness: a whitespace-only title placeholder in front of a content
    shape changes nothing, and in particular sets no title. -/
theorem empty_title_placeholder_excluded_wit :
    extract_slide_text ⟨[emptyTitle, goodShape], none⟩
      = extract_slide_text ⟨[goodShape], none⟩
    ∧ (extract_slide_text ⟨[emptyTitle, goodShape], none⟩).title = "" :=
  ⟨empty_title_placeholder_excluded [] [goodShape] emptyTitle none rfl (by decide),
   by decide⟩

/-- A string headed by a non-whitespace character. -/
def headOK (s : String) : Prop :=
  ∃ ch tl, s.data = ch :: tl ∧ ch.isWhitespace = false

/-- A headed string is nonempty. -/
lemma headOK_ne {s : String} (h : headOK s) : s ≠ "" := by
  obtain ⟨ch, tl, hd, _⟩ := h
  intro hc
  rw [hc] at hd
  cases hd

/-- Each text-glyph-plus-space string is headed by a non-whitespace char. -/
lemma bulletChar_head (b : String) (hb : b ∈ bulletCharsL) : headOK (b ++ " ") := by
  simp only [bulletCharsL, List.mem_cons, List.not_mem_nil, or_false] at hb
  rcases hb with rfl | rfl | rfl | rfl | rfl
  · exact ⟨'•', [' '], rfl, by decide⟩
  · exact ⟨'◦', [' '], rfl, by decide⟩
  · exact ⟨'▪', [' '], rfl, by decide⟩
  · exact ⟨'-', [' '], rfl, by decide⟩
  · exact ⟨'*', [' '], rfl, by decide⟩

/-- The per-level default glyph is headed by a non-whitespace char. -/
lemma defaultBullet_head (level : Nat) : headOK (defaultBullet level) := by
  unfold defaultBullet
  match level with
  | 0 => exact ⟨'•', [' '], rfl, by decide⟩
  | 1 => exact ⟨'◦', [' '], rfl, by decide⟩
  | 2 => exact ⟨'▪', [' '], rfl, by decide⟩
  | n + 3 =>
    rw [show (["• ", "◦ ", "▪ "].getD (n + 3) "- ") = "- " from rfl]
    exact ⟨'-', [' '], rfl, by decide⟩

/-- The heuristic glyph is headed by a non-whitespace char. -/
lemma heurGlyph_head : headOK "• " := ⟨'•', [' '], rfl, by decide⟩

/-- A nonempty XML bullet is headed by a non-whitespace char, provided the
    `buChar` char attribute itself is. -/
lemma xmlBullet_head (p : Paragraph)
    (hchar : ∀ c, p.buCharEl = some (some c) → headOK c)
    (h : xmlBullet p ≠ "") : headOK (xmlBullet p) := by
  unfold xmlBullet at h ⊢
  match hb : p.buCharEl with
  | none => rw [hb] at h; exact absurd rfl h
  | some none => rw [hb] at h; exact absurd rfl h
  | some (some c) =>
    obtain ⟨ch, tl, hd, hw⟩ := hchar c hb
    exact ⟨ch, tl ++ [' '], by rw [data_append, hd]; rfl, hw⟩

/-- After the text-bullet step the glyph is empty or headed. -/
lemma textBulletStep_fst_cases (p : Paragraph)
    (hchar : ∀ c, p.buCharEl = some (some c) → headOK c) :
    (textBulletStep p).1 = "" ∨ headOK (textBulletStep p).1 := by
  unfold textBulletStep
  cases hfind : bulletCharsL.find? (fun b => pyStartsWith (pyStrip p.text) b) with
  | none =>
    by_cases hx : xmlBullet p = ""
    · left; exact hx
    · right; exact xmlBullet_head p hchar hx
  | some b =>
    right
    show headOK (if xmlBullet p = "" then b ++ " " else xmlBullet p)
    by_cases hx : xmlBullet p = ""
    · rw [if_pos hx]
      exact bulletChar_head b (List.mem_of_find?_eq_some hfind)
    · rw [if_neg hx]
      exact xmlBullet_head p hchar hx

/-- If the text-bullet step produced no glyph, the display text is the
    stripped paragraph text. -/
lemma textBulletStep_snd_of_empty (p : Paragraph)
    (h : (textBulletStep p).1 = "") :
    (textBulletStep p).2 = pyStrip p.text := by
  unfold textBulletStep at h ⊢
  cases hfind : bulletCharsL.find? (fun b => pyStartsWith (pyStrip p.text) b) with
  | none => rfl
  | some b =>
    rw [hfind] at h
    exfalso
    have h2 : (if xmlBullet p = "" then b ++ " " else xmlBullet p) = "" := h
    by_cases hx : xmlBullet p = ""
    · rw [if_pos hx] at h2
      exact headOK_ne (bulletChar_head b (List.mem_of_find?_eq_some hfind)) h2
    · rw [if_neg hx] at h2
      exact hx h2

/-- The resolved glyph is empty (with the text passed through untouched) or
    headed by a non-whitespace character. -/
lemma resolveBullet_glyph_cases (ps : List Paragraph) (i : Nat) (p : Paragraph)
    (hchar : ∀ c, p.buCharEl = some (some c) → headOK c) :
    ((resolveBullet ps i p).1 = "" ∧ (resolveBullet ps i p).2 = pyStrip p.text)
    ∨ headOK (resolveBullet ps i p).1 := by
  simp only [resolveBullet]
  rcases textBulletStep_fst_cases p hchar with h1 | h1
  · have hsnd := textBulletStep_snd_of_empty p h1
    rw [h1]
    by_cases hppt : hasPptBullet p = true
    · right
      simp [hppt, defaultBullet_ne_empty p.level]
      exact defaultBullet_head p.level
    · rw [Bool.not_eq_true] at hppt
      by_cases hlev : 0 < p.level
      · right
        simp [hppt, hlev, defaultBullet_ne_empty p.level]
        exact defaultBullet_head p.level
      · have hl0 : p.level = 0 := Nat.eq_zero_of_not_pos hlev
        by_cases hh : heur1Cond ps i (textBulletStep p).2 = true
        · right
          simp [hppt, hlev, hl0, hh]
          exact heurGlyph_head
        · rw [Bool.not_eq_true] at hh
          by_cases hs : slide2Cond (textBulletStep p).2 = true
          · right
            simp [hppt, hlev, hl0, hh, hs]
            exact heurGlyph_head
          · rw [Bool.not_eq_true] at hs
            left
            constructor
            · simp [hppt, hlev, hh, hs]
            · simpa using hsnd
  · right
    have hne := headOK_ne h1
    simpa [hne] using h1

/-- The fold producing `"  " * level` appends two spaces per step. -/
lemma join_replicate_indent : ∀ (n : Nat) (acc : String),
    ((List.replicate n "  ").foldl (fun r s => r ++ s) acc).data
      = acc.data ++ List.replicate (2 * n) ' '
  | 0, acc => by simp
  | n + 1, acc => by
    rw [List.replicate_succ, List.foldl_cons, join_replicate_indent n (acc ++ "  ")]
    rw [data_append, List.append_assoc]
    congr 1

/-- `mkIndent level` is exactly `2 * level` spaces. -/
lemma mkIndent_data (level : Nat) :
    (mkIndent level).data = List.replicate (2 * level) ' ' := by
  unfold mkIndent String.join
  rw [join_replicate_indent]
  rfl

/-- The whitespace run of `2 * level` spaces followed by a headed-or-empty
    tail has length exactly `n`. -/
lemma takeWhile_replicate_space (n : Nat) (l : List Char)
    (h : ∀ ch tl, l = ch :: tl → ch.isWhitespace = false) :
    ((List.replicate n ' ' ++ l).takeWhile Char.isWhitespace).length = n := by
  induction n with
  | zero =>
    rw [List.replicate, List.nil_append]
    cases hl : l with
    | nil => rfl
    | cons ch tl =>
      rw [List.takeWhile_cons, h ch tl hl]
      rfl
  | succ n ih =>
    rw [List.replicate_succ, List.cons_append, List.takeWhile_cons]
    simp only [show (' '.isWhitespace) = true by decide, if_true, List.length_cons, ih]

/-- C6 counterexample: in flat mode the source line "  - Item one" has
    estimated indentation level 1, yet the emitted line is the left-stripped
    "- Item one" whose leading-whitespace prefix has length 0, not 2. -/
theorem flat_verbatim_line_loses_indent :
    flatLines "  - Item one" = ["- Item one"]
    ∧ ("  - Item one".data.length - (pyLStrip "  - Item one").data.length) / 2 = 1
    ∧ leadingWS "- Item one" = 0 := by decide

/-- A structured-mode rendered line carries exactly `2 * level` leading
    whitespace characters, provided the `buChar` char attribute (when
    present) is headed by a non-whitespace character, as the stripped
    nonblank paragraph text is. -/
lemma structuredLine_leadingWS (ps : List Paragraph) (i : Nat) (p : Paragraph)
    (hchar : ∀ c, p.buCharEl = some (some c) → headOK c)
    (htext : headOK (pyStrip p.text)) :
    leadingWS (resolveParagraph ps i p) = 2 * p.level := by
  unfold resolveParagraph leadingWS
  simp only [data_append]
  rw [List.append_assoc, mkIndent_data]
  apply takeWhile_replicate_space
  intro ch tl heq
  rcases resolveBullet_glyph_cases ps i p hchar with ⟨h1, h2⟩ | ⟨c2, t2, hd, hw⟩
  · rw [h1, h2, show ("" : String).data = [] from rfl, List.nil_append] at heq
    obtain ⟨c3, t3, hd3, hw3⟩ := htext
    rw [hd3] at heq
    injection heq with e1 e2
    rw [← e1]
    exact hw3
  · rw [hd, List.cons_append] at heq
    injection heq with e1 e2
    rw [← e1]
    exact hw

/-- Dropping a whitespace prefix leaves nothing for `takeWhile` to take. -/
lemma takeWhile_dropWhile_nil (l : List Char) :
    (l.dropWhile Char.isWhitespace).takeWhile Char.isWhitespace = [] := by
  induction l with
  | nil => rfl
  | cons c t ih =>
    rw [List.dropWhile_cons]
    by_cases h : Char.isWhitespace c = true
    · rw [if_pos h]
      exact ih
    · rw [if_neg h, List.takeWhile_cons, if_neg h]

/-- A left-stripped line has no leading whitespace. -/
lemma leadingWS_pyLStrip (s : String) : leadingWS (pyLStrip s) = 0 := by
  show ((s.data.dropWhile Char.isWhitespace).takeWhile Char.isWhitespace).length = 0
  rw [takeWhile_dropWhile_nil]
  rfl

/-- The flat-mode synthesized glyph is headed by a non-whitespace char. -/
lemma flatBullet_head (lvl : Nat) : headOK (flatBullet lvl) := by
  unfold flatBullet
  split
  · exact ⟨'•', [' '], rfl, by decide⟩
  · split
    · exact ⟨'◦', [' '], rfl, by decide⟩
    · exact ⟨'▪', [' '], rfl, by decide⟩

/-- A flat-mode synthesized line carries exactly `2 * lvl` leading spaces. -/
lemma leadingWS_synth (lvl : Nat) (s : String) :
    leadingWS (mkIndent lvl ++ flatBullet lvl ++ s) = 2 * lvl := by
  unfold leadingWS
  simp only [data_append]
  rw [List.append_assoc, mkIndent_data]
  apply takeWhile_replicate_space
  intro ch tl heq
  obtain ⟨c2, t2, hd, hw⟩ := flatBullet_head lvl
  rw [hd, List.cons_append] at heq
  injection heq with e1 e2
  rw [← e1]
  exact hw

/-- A flat-mode step on a nonblank line emits either the left-stripped line
    verbatim or the synthesized-bullet line at the estimated level. -/
lemma flatStep_emit (acc : List String) (rawLine : String)
    (hne : pyStrip (pyRStrip rawLine) ≠ "") :
    flatStep acc rawLine = acc ++ [pyLStrip (pyRStrip rawLine)]
    ∨ flatStep acc rawLine
        = acc ++ [mkIndent (((pyRStrip rawLine).data.length
                    - (pyLStrip (pyRStrip rawLine)).data.length) / 2)
                  ++ flatBullet (((pyRStrip rawLine).data.length
                    - (pyLStrip (pyRStrip rawLine)).data.length) / 2)
                  ++ pyLStrip (pyRStrip rawLine)] := by
  simp only [flatStep]
  rw [if_neg hne]
  split
  · left
    rfl
  · split
    · right
      rfl
    · left
      rfl

/-- C6 (amended): in structured mode every rendered line's leading-whitespace
    prefix has length exactly `2 * level`, provided the XML `buChar` char
    attribute (when present) is headed by a non-whitespace character — a
    whitespace char attribute lengthens the prefix — as the stripped
    nonblank paragraph text is.  In flat mode every emitted line is either
    the left-stripped source line, with a leading-whitespace prefix of
    length 0 even when the estimated level is positive (verbatim-bullet and
    plain lines), or the synthesized-bullet line whose prefix has length
    exactly `2 *` the estimated level. -/
theorem rendered_line_indent :
    (∀ (ps : List Paragraph) (i : Nat) (p : Paragraph),
      (∀ c, p.buCharEl = some (some c) → headOK c) →
      headOK (pyStrip p.text) →
      leadingWS (resolveParagraph ps i p) = 2 * p.level)
    ∧ (∀ (acc : List String) (rawLine : String),
      pyStrip (pyRStrip rawLine) ≠ "" →
      (flatStep acc rawLine = acc ++ [pyLStrip (pyRStrip rawLine)]
        ∧ leadingWS (pyLStrip (pyRStrip rawLine)) = 0)
      ∨ (flatStep acc rawLine
          = acc ++ [mkIndent (((pyRStrip rawLine).data.length
                      - (pyLStrip (pyRStrip rawLine)).data.length) / 2)
                    ++ flatBullet (((pyRStrip rawLine).data.length
                      - (pyLStrip (pyRStrip rawLine)).data.length) / 2)
                    ++ pyLStrip (pyRStrip rawLine)]
        ∧ leadingWS (mkIndent (((pyRStrip rawLine).data.length
                      - (pyLStrip (pyRStrip rawLine)).data.length) / 2)
                    ++ flatBullet (((pyRStrip rawLine).data.length
                      - (pyLStrip (pyRStrip rawLine)).data.length) / 2)
                    ++ pyLStrip (pyRStrip rawLine))
            = 2 * (((pyRStrip rawLine).data.length
                      - (pyLStrip (pyRStrip rawLine)).data.length) / 2))) := by
  constructor
  · exact structuredLine_leadingWS
  · intro acc rawLine hne
    rcases flatStep_emit acc rawLine hne with h | h
    · left
      exact ⟨h, leadingWS_pyLStrip _⟩
    · right
      exact ⟨h, leadingWS_synth _ _⟩

/-- C6 witness: a bare level-1 paragraph renders with exactly two leading
    spaces, and the flat-mode step on "  - Item one" emits its left-stripped
    or re-indented form. -/
theorem rendered_line_indent_wit :
    leadingWS (resolveParagraph [pLevel1] 0 pLevel1) = 2 * pLevel1.level
    ∧ ((flatStep [] "  - Item one" = [] ++ [pyLStrip (pyRStrip "  - Item one")]
        ∧ leadingWS (pyLStrip (pyRStrip "  - Item one")) = 0)
      ∨ (flatStep [] "  - Item one"
          = [] ++ [mkIndent (((pyRStrip "  - Item one").data.length
                      - (pyLStrip (pyRStrip "  - Item one")).data.length) / 2)
                    ++ flatBullet (((pyRStrip "  - Item one").data.length
                      - (pyLStrip (pyRStrip "  - Item one")).data.length) / 2)
                    ++ pyLStrip (pyRStrip "  - Item one")]
        ∧ leadingWS (mkIndent (((pyRStrip "  - Item one").data.length
                      - (pyLStrip (pyRStrip "  - Item one")).data.length) / 2)
                    ++ flatBullet (((pyRStrip "  - Item one").data.length
                      - (pyLStrip (pyRStrip "  - Item one")).data.length) / 2)
                    ++ pyLStrip (pyRStrip "  - Item one"))
            = 2 * (((pyRStrip "  - Item one").data.length
                      - (pyLStrip (pyRStrip "  - Item one")).data.length) / 2))) :=
  ⟨rendered_line_indent.1 [pLevel1] 0 pLevel1
      (by intro c hc; simp [pLevel1, baseParagraph] at hc)
      ⟨'h', "ello world".data, by decide, by decide⟩,
   rendered_line_indent.2 [] "  - Item one" (by decide)⟩

end PptxExtract
